import Mathlib

/-!
Shallow embedding of `src/gocert.py`, the GoCert HTTP client library, and
proofs about its operations.

Modelling conventions:
* A JSON value (`JsonVal`) stands both for parsed response bodies and for the
  Python values the client stores; Python `None` is `JsonVal.null` (the two
  coincide in the source, since `dict.get` returns `None` for a missing key
  and `json.loads` turns JSON `null` into `None`).
* The outcome of one `requests.get`/`requests.post` call is `HttpOutcome`:
  either `failure` (a transport or TLS error raised by `requests`, so no
  response object exists) or `response r` with status code, raw text and the
  JSON parse of the body (`none` when the body is not valid JSON, in which
  case `req.json()` raises).
* The network is a function `env : HttpRequest → HttpOutcome`; each method
  builds its request exactly as the source does (URL from the configured base
  URL, `verify` from the configured CA path) and consults `env` once.
* A Python exception escaping a method is `Except.error`; a normal return is
  `Except.ok`. `raise_for_status` raises exactly for status codes in
  [400, 600); that exception and transport errors are the ones caught by the
  `except (requests.RequestException, OSError)` handlers.
* Each method returns `(self, result, emitted log entries)`: the source never
  assigns any attribute outside `__init__`, so the returned client is the
  incoming one.
-/

namespace GoCertLib

/-- A JSON value; also the Python value a parsed body yields
(`null` is Python `None`). -/
inductive JsonVal where
  | null
  | bool (b : Bool)
  | int (n : Int)
  | str (s : String)
  | arr (elems : List JsonVal)
  | obj (fields : List (String × JsonVal))
  deriving Repr

/-- Python truthiness of a parsed JSON value: `None`, `False`, `0`, empty
string, empty list and empty dict are falsy. -/
def JsonVal.truthy : JsonVal → Bool
  | .null => false
  | .bool b => b
  | .int n => n != 0
  | .str s => s != ""
  | .arr elems => !elems.isEmpty
  | .obj fields => !fields.isEmpty

/-- The Python exceptions that can escape a client method. -/
inductive PyExn where
  | unboundLocal (name : String)
  | jsonDecodeError
  | attributeError
  | typeError
  | valueError
  deriving Repr, DecidableEq

/-- Python `value.get(key, dflt)`: defined on dicts, first matching key wins;
on any other value `.get` raises `AttributeError`. -/
def JsonVal.getD (v : JsonVal) (key : String) (dflt : JsonVal) : Except PyExn JsonVal :=
  match v with
  | .obj fields => .ok ((fields.lookup key).getD dflt)
  | _ => .error .attributeError

/-- Python `value.get(key)`: default `None`. -/
def JsonVal.get (v : JsonVal) (key : String) : Except PyExn JsonVal :=
  v.getD key .null

/-- Python `int(v)` on a parsed JSON value: ints pass through, booleans become
0 or 1, strings are parsed (raising `ValueError` when not an integer literal),
everything else raises `TypeError`. -/
def pyInt : JsonVal → Except PyExn Int
  | .int n => .ok n
  | .bool b => .ok (if b then 1 else 0)
  | .str s =>
      match s.toInt? with
      | some n => .ok n
      | none => .error .valueError
  | .null => .error .typeError
  | .arr _ => .error .typeError
  | .obj _ => .error .typeError

/-- One HTTP response as `requests` hands it back: status code, body text,
and the JSON parse of the body (`none` when `req.json()` would raise). -/
structure Response where
  status_code : Nat
  text : String
  body : Option JsonVal

/-- Outcome of one `requests` call: a transport/TLS failure raises before any
response object exists, otherwise a response is returned. -/
inductive HttpOutcome where
  | failure
  | response (r : Response)

/-- `req.raise_for_status()` raises `HTTPError` exactly for client and server
error codes, 400 ≤ code < 600. Codes below 400 (including 1xx and 3xx) pass. -/
def errorStatus (code : Nat) : Bool :=
  400 ≤ code && code < 600

theorem errorStatus_iff (code : Nat) :
    errorStatus code = true ↔ 400 ≤ code ∧ code < 600 := by
  simp [errorStatus]

theorem errorStatus_false_iff (code : Nat) :
    errorStatus code = false ↔ ¬ (400 ≤ code ∧ code < 600) := by
  rw [← Bool.not_eq_true, not_iff_not]
  exact errorStatus_iff code

/-- Levels used by the logging calls in the source. -/
inductive LogLevel where
  | error
  | warning
  | info
  deriving Repr, DecidableEq

/-- One emitted log record, with the %s-formatted message. -/
structure LogEntry where
  level : LogLevel
  msg : String
  deriving Repr, DecidableEq

/-- The request a method hands to `requests`: verb, full URL, the `verify`
argument, headers, and the JSON or raw payload if any. -/
structure HttpRequest where
  verb : String
  url : String
  verify : Option String
  headers : List (String × String)
  jsonPayload : Option JsonVal
  data : Option String

/-- The client: `__init__` stores the base URL and the CA bundle path. -/
structure GoCert where
  url : String
  ca_path : String

/-- `GoCert.API_VERSION = "v1"`. -/
def GoCert.API_VERSION : String := "v1"

/-- `verify=self.ca_path if self.ca_path else None`: an empty (falsy) path
means the system trust store. -/
def verifyArg (ca_path : String) : Option String :=
  if ca_path != "" then some ca_path else none

/-- The request `login` sends: `POST {url}/login` with the credentials as a
JSON payload. -/
def GoCert.login_request (c : GoCert) (username password : String) : HttpRequest :=
  { verb := "POST"
    url := c.url ++ "/login"
    verify := verifyArg c.ca_path
    headers := []
    jsonPayload := some (.obj [("username", .str username), ("password", .str password)])
    data := none }

/-- The request `token_is_valid` sends: `GET {url}/accounts` with the bearer
token header. -/
def GoCert.token_request (c : GoCert) (token : String) : HttpRequest :=
  { verb := "GET"
    url := c.url ++ "/accounts"
    verify := verifyArg c.ca_path
    headers := [("Authorization", "Bearer " ++ token)]
    jsonPayload := none
    data := none }

/-- The request `is_api_available` and `is_initialized` send: `GET {url}/status`. -/
def GoCert.status_request (c : GoCert) : HttpRequest :=
  { verb := "GET"
    url := c.url ++ "/status"
    verify := verifyArg c.ca_path
    headers := []
    jsonPayload := none
    data := none }

/-- The request `create_first_user` sends: `POST {url}/api/v1/accounts` with
the credentials as a JSON payload. -/
def GoCert.create_first_user_request (c : GoCert) (username password : String) : HttpRequest :=
  { verb := "POST"
    url := c.url ++ "/api/" ++ GoCert.API_VERSION ++ "/accounts"
    verify := verifyArg c.ca_path
    headers := []
    jsonPayload := some (.obj [("username", .str username), ("password", .str password)])
    data := none }

/-- The request `get_certificate_requests_table` sends:
`GET {url}/api/v1/certificate_requests` with the bearer token header. -/
def GoCert.certificate_requests_get_request (c : GoCert) (token : String) : HttpRequest :=
  { verb := "GET"
    url := c.url ++ "/api/" ++ GoCert.API_VERSION ++ "/certificate_requests"
    verify := verifyArg c.ca_path
    headers := [("Authorization", "Bearer " ++ token)]
    jsonPayload := none
    data := none }

/-- The request `post_csr` sends: `POST {url}/api/v1/certificate_requests`
with the bearer token header and the raw CSR as the body. -/
def GoCert.post_csr_request (c : GoCert) (csr token : String) : HttpRequest :=
  { verb := "POST"
    url := c.url ++ "/api/" ++ GoCert.API_VERSION ++ "/certificate_requests"
    verify := verifyArg c.ca_path
    headers := [("Authorization", "Bearer " ++ token)]
    jsonPayload := none
    data := some csr }

/-- `GoCert.login`. On a transport/TLS failure the handler itself evaluates
`req.status_code` with `req` unbound and raises `UnboundLocalError`. On a
4xx/5xx response the `HTTPError` is caught, the failure is logged and `None`
is returned; on any other status the body text is returned. -/
def GoCert.login (c : GoCert) (username password : String)
    (env : HttpRequest → HttpOutcome) :
    GoCert × Except PyExn (Option String) × List LogEntry :=
  match env (c.login_request username password) with
  | .failure => (c, .error (.unboundLocal "req"), [])
  | .response req =>
      if errorStatus req.status_code then
        (c, .ok none,
          [⟨.error, "couldn\x27t log in: code " ++ toString req.status_code ++ ", " ++ req.text⟩])
      else
        (c, .ok (some req.text), [⟨.info, "logged in to GoCert successfully"⟩])

/-- `GoCert.token_is_valid`: `True` unless the call raises, `False` when it
does; the handler touches nothing, so no exception escapes. -/
def GoCert.token_is_valid (c : GoCert) (token : String)
    (env : HttpRequest → HttpOutcome) :
    GoCert × Except PyExn Bool × List LogEntry :=
  match env (c.token_request token) with
  | .failure => (c, .ok false, [])
  | .response req => (c, .ok (!errorStatus req.status_code), [])

/-- `GoCert.is_api_available`: like `token_is_valid` but against `/status`
with no token. -/
def GoCert.is_api_available (c : GoCert)
    (env : HttpRequest → HttpOutcome) :
    GoCert × Except PyExn Bool × List LogEntry :=
  match env c.status_request with
  | .failure => (c, .ok false, [])
  | .response req => (c, .ok (!errorStatus req.status_code), [])

/-- `GoCert.is_initialized`: `False` on any caught failure, otherwise
`req.json().get("initialized", False)`; `req.json()` sits outside the `try`,
so a non-JSON body raises, and the looked-up value is returned as is. -/
def GoCert.is_initialized (c : GoCert)
    (env : HttpRequest → HttpOutcome) :
    GoCert × Except PyExn JsonVal × List LogEntry :=
  match env c.status_request with
  | .failure => (c, .ok (.bool false), [])
  | .response req =>
      if errorStatus req.status_code then
        (c, .ok (.bool false), [])
      else
        match req.body with
        | none => (c, .error .jsonDecodeError, [])
        | some body =>
            match body.getD "initialized" (.bool false) with
            | .ok v => (c, .ok v, [])
            | .error e => (c, .error e, [])

/-- `GoCert.create_first_user`. Transport failure: the handler raises
`UnboundLocalError` as in `login`. Caught `HTTPError`: logs a warning and
returns `None`. Otherwise it logs, parses the body (outside the `try`), and
returns `int(id) if id else None` — so a missing, null, zero or otherwise
falsy `id` yields `None`. -/
def GoCert.create_first_user (c : GoCert) (username password : String)
    (env : HttpRequest → HttpOutcome) :
    GoCert × Except PyExn (Option Int) × List LogEntry :=
  match env (c.create_first_user_request username password) with
  | .failure => (c, .error (.unboundLocal "req"), [])
  | .response req =>
      if errorStatus req.status_code then
        (c, .ok none,
          [⟨.warning, "couldn\x27t create first user: code " ++ toString req.status_code ++ ", " ++ req.text⟩])
      else
        let logs : List LogEntry := [⟨.info, "created the first user in GoCert."⟩]
        match req.body with
        | none => (c, .error .jsonDecodeError, logs)
        | some body =>
            match body.get "id" with
            | .error e => (c, .error e, logs)
            | .ok idv =>
                if idv.truthy then
                  match pyInt idv with
                  | .ok n => (c, .ok (some n), logs)
                  | .error e => (c, .error e, logs)
                else
                  (c, .ok none, logs)

/-- `CertificateRequest(csr.get("id"), csr.get("csr"), csr.get("certificate"))`:
the dataclass stores whatever `.get` returned, `None` included — the
annotations `int`/`str` are not enforced at runtime. -/
structure CertificateRequest where
  id : JsonVal
  csr : JsonVal
  certificate : JsonVal
  deriving Repr

/-- `CertificateRequests`: the table wrapper around the row list. -/
structure CertificateRequests where
  rows : List CertificateRequest
  deriving Repr

/-- Building one row from one element of the parsed table, fields fetched
left to right; `.get` on a non-dict element raises `AttributeError`. -/
def rowOfElem (e : JsonVal) : Except PyExn CertificateRequest := do
  let i ← e.get "id"
  let s ← e.get "csr"
  let cert ← e.get "certificate"
  pure ⟨i, s, cert⟩

/-- The row a well-formed (dict) element yields. -/
def rowOfObj (fields : List (String × JsonVal)) : CertificateRequest :=
  ⟨(fields.lookup "id").getD .null,
   (fields.lookup "csr").getD .null,
   (fields.lookup "certificate").getD .null⟩

/-- The list comprehension over the parsed table: rows are built left to
right and the first exception propagates. -/
def buildRows : List JsonVal → Except PyExn (List CertificateRequest)
  | [] => .ok []
  | e :: rest => do
      let row ← rowOfElem e
      let rows ← buildRows rest
      pure (row :: rows)

/-- `GoCert.get_certificate_requests_table`. Transport failure: the handler
raises `UnboundLocalError`. Caught `HTTPError`: logs a warning, returns
`None`. Otherwise the body is parsed (outside the `try`) and the rows are
built when the table is truthy, else the row list is empty; iterating a
truthy non-list body fails (`AttributeError` when the items lack `.get`,
`TypeError` when the value is not iterable). -/
def GoCert.get_certificate_requests_table (c : GoCert) (token : String)
    (env : HttpRequest → HttpOutcome) :
    GoCert × Except PyExn (Option CertificateRequests) × List LogEntry :=
  match env (c.certificate_requests_get_request token) with
  | .failure => (c, .error (.unboundLocal "req"), [])
  | .response req =>
      if errorStatus req.status_code then
        (c, .ok none,
          [⟨.warning, "couldn\x27t retrieve certificate requests table: code " ++ toString req.status_code ++ ", " ++ req.text⟩])
      else
        match req.body with
        | none => (c, .error .jsonDecodeError, [])
        | some table =>
            if table.truthy then
              match table with
              | .arr elems =>
                  match buildRows elems with
                  | .ok rows => (c, .ok (some ⟨rows⟩), [])
                  | .error e => (c, .error e, [])
              | .obj _ => (c, .error .attributeError, [])
              | .str _ => (c, .error .attributeError, [])
              | _ => (c, .error .typeError, [])
            else
              (c, .ok (some ⟨[]⟩), [])

/-- `GoCert.post_csr`. Transport failure: the handler raises
`UnboundLocalError`. Any response: a caught `HTTPError` only logs; there is
no return value either way. -/
def GoCert.post_csr (c : GoCert) (csr token : String)
    (env : HttpRequest → HttpOutcome) :
    GoCert × Except PyExn Unit × List LogEntry :=
  match env (c.post_csr_request csr token) with
  | .failure => (c, .error (.unboundLocal "req"), [])
  | .response req =>
      if errorStatus req.status_code then
        (c, .ok (),
          [⟨.error, "couldn\x27t post new certificate requests: code " ++ toString req.status_code ++ ", " ++ req.text⟩])
      else
        (c, .ok (), [])

end GoCertLib

namespace GoCertLib

/-! Helper lemmas: every method leaves the client record untouched. -/

theorem login_preserves_client (c : GoCert) (u p : String)
    (env : HttpRequest → HttpOutcome) : (c.login u p env).1 = c := by
  unfold GoCert.login
  repeat (any_goals (first | rfl | split))

theorem token_is_valid_preserves_client (c : GoCert) (tok : String)
    (env : HttpRequest → HttpOutcome) : (c.token_is_valid tok env).1 = c := by
  unfold GoCert.token_is_valid
  repeat (any_goals (first | rfl | split))

theorem is_api_available_preserves_client (c : GoCert)
    (env : HttpRequest → HttpOutcome) : (c.is_api_available env).1 = c := by
  unfold GoCert.is_api_available
  repeat (any_goals (first | rfl | split))

theorem is_initialized_preserves_client (c : GoCert)
    (env : HttpRequest → HttpOutcome) : (c.is_initialized env).1 = c := by
  unfold GoCert.is_initialized
  repeat (any_goals (first | rfl | split))

theorem create_first_user_preserves_client (c : GoCert) (u p : String)
    (env : HttpRequest → HttpOutcome) : (c.create_first_user u p env).1 = c := by
  unfold GoCert.create_first_user
  repeat (any_goals (first | rfl | split))

theorem table_preserves_client (c : GoCert) (tok : String)
    (env : HttpRequest → HttpOutcome) :
    (c.get_certificate_requests_table tok env).1 = c := by
  unfold GoCert.get_certificate_requests_table
  repeat (any_goals (first | rfl | split))

theorem post_csr_preserves_client (c : GoCert) (csr tok : String)
    (env : HttpRequest → HttpOutcome) : (c.post_csr csr tok env).1 = c := by
  unfold GoCert.post_csr
  repeat (any_goals (first | rfl | split))

/-- Claim C1: the spec says every operation surfaces every transport, TLS or
HTTP-status failure only as an absence value, boolean or no-op, never as a
propagated exception. The code violates this: in `login` (likewise
`create_first_user`, `get_certificate_requests_table`, `post_csr`) the
`except` handler formats `req.status_code` and `req.text`, but on a transport
failure the `requests.post` call raised before `req` was assigned, so the
handler itself raises `UnboundLocalError`, which propagates to the caller.
This theorem evaluates `login` at such a failing input. -/
theorem C1_login_transport_failure_raises :
    (GoCert.login ⟨"https://gocert.example:8000", "/ca.pem"⟩ "admin" "secret"
        (fun _ => .failure)).2.1 = .error (.unboundLocal "req") := rfl

/-- Claim C2, counterexample: the claim says `login` returns `None` on every
non-2xx status, but `raise_for_status` only raises for 4xx/5xx, so on a 301
response (which `requests` hands back when it cannot follow the redirect) the
body text is returned even though 301 is not a 2xx status. -/
theorem C2_counterexample :
    (GoCert.login ⟨"https://gc2.example", ""⟩ "admin" "pw"
        (fun _ => .response ⟨301, "redirect-body", some .null⟩)).2.1
      = .ok (some "redirect-body") ∧ ¬ (200 ≤ 301 ∧ 301 < 300) :=
  ⟨rfl, by omega⟩

/-- Claim C2, amended: `login` returns the body text when the response status
is outside [400, 600) — which includes every 2xx — and `None` exactly on the
4xx/5xx statuses for which `raise_for_status` raises. -/
theorem C2_login_amended (c : GoCert) (u p : String)
    (env : HttpRequest → HttpOutcome) (r : Response)
    (h : env (c.login_request u p) = .response r) :
    (c.login u p env).2.1 =
      if 400 ≤ r.status_code ∧ r.status_code < 600 then .ok none
      else .ok (some r.text) := by
  by_cases hc : 400 ≤ r.status_code ∧ r.status_code < 600
  · have he : errorStatus r.status_code = true := (errorStatus_iff _).mpr hc
    simp [GoCert.login, h, he, hc]
  · have he : errorStatus r.status_code = false := (errorStatus_false_iff _).mpr hc
    simp [GoCert.login, h, he, hc]

/-- Witness for the amended C2 theorem at a concrete 200 response. -/
theorem C2_login_amended_witness :
    (GoCert.login ⟨"https://gc2w.example", ""⟩ "admin" "pw"
        (fun _ => .response ⟨200, "tok200", some .null⟩)).2.1 = .ok (some "tok200") := by
  rw [C2_login_amended ⟨"https://gc2w.example", ""⟩ "admin" "pw" _
        ⟨200, "tok200", some .null⟩ rfl]
  rw [if_neg (by decide)]

/-- Claim C5: when the server produced any response at all, `post_csr`
returns without raising, its only result is `None` (unit), and the sole
difference between a 4xx/5xx outcome and any other outcome is the emitted
log entry. -/
theorem C5_post_csr_no_raise (c : GoCert) (csr token : String)
    (env : HttpRequest → HttpOutcome) (r : Response)
    (h : env (c.post_csr_request csr token) = .response r) :
    (c.post_csr csr token env).2.1 = .ok () ∧
    (c.post_csr csr token env).2.2 =
      (if 400 ≤ r.status_code ∧ r.status_code < 600 then
        [⟨.error, "couldn\x27t post new certificate requests: code "
            ++ toString r.status_code ++ ", " ++ r.text⟩]
      else []) := by
  by_cases hc : 400 ≤ r.status_code ∧ r.status_code < 600
  · have he : errorStatus r.status_code = true := (errorStatus_iff _).mpr hc
    simp [GoCert.post_csr, h, he, hc]
  · have he : errorStatus r.status_code = false := (errorStatus_false_iff _).mpr hc
    simp [GoCert.post_csr, h, he, hc]

/-- Witness for the C5 theorem at a concrete 503 response. -/
theorem C5_post_csr_no_raise_witness :
    (GoCert.post_csr ⟨"https://gc5.example", "/c.pem"⟩ "csrdata" "tok5"
        (fun _ => .response ⟨503, "unavailable", none⟩)).2.1 = .ok () :=
  (C5_post_csr_no_raise ⟨"https://gc5.example", "/c.pem"⟩ "csrdata" "tok5" _
      ⟨503, "unavailable", none⟩ rfl).1

/-- Claim C6: a 2xx response whose body parses to the empty JSON array makes
`get_certificate_requests_table` return the collection with an empty row
list, not the absence value. -/
theorem C6_empty_table_yields_empty_collection (c : GoCert) (token : String)
    (env : HttpRequest → HttpOutcome) (r : Response)
    (h : env (c.certificate_requests_get_request token) = .response r)
    (h2 : 200 ≤ r.status_code ∧ r.status_code < 300)
    (hb : r.body = some (.arr [])) :
    (c.get_certificate_requests_table token env).2.1 = .ok (some ⟨[]⟩) ∧
    (c.get_certificate_requests_table token env).2.1 ≠ .ok none := by
  have he : errorStatus r.status_code = false :=
    (errorStatus_false_iff _).mpr (by omega)
  constructor
  · simp [GoCert.get_certificate_requests_table, h, he, hb, JsonVal.truthy]
  · simp [GoCert.get_certificate_requests_table, h, he, hb, JsonVal.truthy]

/-- Witness for the C6 theorem at a concrete 200 response with an empty
array body. -/
theorem C6_empty_table_witness :
    (GoCert.get_certificate_requests_table ⟨"https://gc6.example", ""⟩ "tok6"
        (fun _ => .response ⟨200, "empty", some (.arr [])⟩)).2.1 = .ok (some ⟨[]⟩) :=
  (C6_empty_table_yields_empty_collection ⟨"https://gc6.example", ""⟩ "tok6" _
      ⟨200, "empty", some (.arr [])⟩ rfl (by decide) rfl).1

/-- Claim C8, counterexample: the claim says `token_is_valid` is true iff the
status is 2xx, but a 301 response passes `raise_for_status`, so the method
returns true at a non-2xx status. -/
theorem C8_counterexample :
    (GoCert.token_is_valid ⟨"https://gc8.example", ""⟩ "tok8"
        (fun _ => .response ⟨301, "redirect", none⟩)).2.1 = .ok true ∧
    ¬ (200 ≤ 301 ∧ 301 < 300) :=
  ⟨rfl, by omega⟩

/-- Claim C8, amended: `token_is_valid` returns true exactly when the
response status lies outside [400, 600), and false on a transport failure or
on a 4xx/5xx status. -/
theorem C8_token_is_valid_amended (c : GoCert) (token : String)
    (env : HttpRequest → HttpOutcome) :
    (env (c.token_request token) = .failure →
        (c.token_is_valid token env).2.1 = .ok false) ∧
    (∀ r, env (c.token_request token) = .response r →
        ((¬ (400 ≤ r.status_code ∧ r.status_code < 600) →
            (c.token_is_valid token env).2.1 = .ok true) ∧
         ((400 ≤ r.status_code ∧ r.status_code < 600) →
            (c.token_is_valid token env).2.1 = .ok false))) := by
  refine ⟨fun h => by simp [GoCert.token_is_valid, h],
          fun r h => ⟨fun hc => ?_, fun hc => ?_⟩⟩
  · have he : errorStatus r.status_code = false := (errorStatus_false_iff _).mpr hc
    simp [GoCert.token_is_valid, h, he]
  · have he : errorStatus r.status_code = true := (errorStatus_iff _).mpr hc
    simp [GoCert.token_is_valid, h, he]

/-- Witness for the amended C8 theorem at a concrete 204 response. -/
theorem C8_token_is_valid_amended_witness :
    (GoCert.token_is_valid ⟨"https://gc8w.example", ""⟩ "tok8w"
        (fun _ => .response ⟨204, "", none⟩)).2.1 = .ok true :=
  ((C8_token_is_valid_amended ⟨"https://gc8w.example", ""⟩ "tok8w" _).2
      ⟨204, "", none⟩ rfl).1 (by decide)

/-- Claim C10: `token_is_valid` and `is_api_available` always return a plain
boolean — in particular on a transport failure, where no response object
exists, their handlers reference nothing and simply return false — and never
let an exception escape. -/
theorem C10_boolean_totality (c : GoCert) (token : String)
    (env1 env2 : HttpRequest → HttpOutcome) :
    ((c.token_is_valid token env1).2.1 = .ok true ∨
     (c.token_is_valid token env1).2.1 = .ok false) ∧
    ((c.is_api_available env2).2.1 = .ok true ∨
     (c.is_api_available env2).2.1 = .ok false) := by
  constructor
  · cases h : env1 (c.token_request token) with
    | failure => right; simp [GoCert.token_is_valid, h]
    | response r =>
        cases hb : errorStatus r.status_code
        · left; simp [GoCert.token_is_valid, h, hb]
        · right; simp [GoCert.token_is_valid, h, hb]
  · cases h : env2 c.status_request with
    | failure => right; simp [GoCert.is_api_available, h]
    | response r =>
        cases hb : errorStatus r.status_code
        · left; simp [GoCert.is_api_available, h, hb]
        · right; simp [GoCert.is_api_available, h, hb]

end GoCertLib

namespace GoCertLib

/-- Claim C7, counterexample: the claim says `is_initialized` returns false
on any non-success status, but a 301 response passes `raise_for_status` and
the body is parsed, so a 301 response whose body asserts initialization makes
the method return true at a non-2xx status. -/
theorem C7_counterexample :
    (GoCert.is_initialized ⟨"https://gc7.example", ""⟩
        (fun _ => .response ⟨301, "redirect",
            some (.obj [("initialized", .bool true)])⟩)).2.1
      = .ok (.bool true) ∧ ¬ (200 ≤ 301 ∧ 301 < 300) :=
  ⟨rfl, by omega⟩

/-- Claim C7, amended: `is_initialized` returns false when the `initialized`
field is missing from the parsed body of a non-error response, and false on
any transport failure or 4xx/5xx status; a status below 400 (3xx included)
is processed like a success. -/
theorem C7_is_initialized_amended (c : GoCert) (env : HttpRequest → HttpOutcome) :
    (env c.status_request = .failure →
        (c.is_initialized env).2.1 = .ok (.bool false)) ∧
    (∀ r, env c.status_request = .response r →
      (((400 ≤ r.status_code ∧ r.status_code < 600) →
          (c.is_initialized env).2.1 = .ok (.bool false)) ∧
       (∀ fields, ¬ (400 ≤ r.status_code ∧ r.status_code < 600) →
          r.body = some (.obj fields) →
          fields.lookup "initialized" = none →
          (c.is_initialized env).2.1 = .ok (.bool false)))) := by
  refine ⟨fun h => by simp [GoCert.is_initialized, h],
          fun r h => ⟨fun hc => ?_, fun fields hc hb hl => ?_⟩⟩
  · have he : errorStatus r.status_code = true := (errorStatus_iff _).mpr hc
    simp [GoCert.is_initialized, h, he]
  · have he : errorStatus r.status_code = false := (errorStatus_false_iff _).mpr hc
    simp [GoCert.is_initialized, h, he, hb, JsonVal.getD, hl]

/-- Witness for the amended C7 theorem: a 200 response whose body is a JSON
object without the initialized field yields false. -/
theorem C7_is_initialized_amended_witness :
    (GoCert.is_initialized ⟨"https://gc7w.example", ""⟩
        (fun _ => .response ⟨200, "ok", some (.obj [])⟩)).2.1 = .ok (.bool false) :=
  ((C7_is_initialized_amended ⟨"https://gc7w.example", ""⟩ _).2
      ⟨200, "ok", some (.obj [])⟩ rfl).2 [] (by decide) rfl rfl

/-- Claim C3, counterexample: the claim says a 2xx response yields the new
account id, but the source runs `int(id) if id else None`, and Python treats
the integer 0 as falsy — so a 201 response with body id 0 yields `None`, not
the id. -/
theorem C3_counterexample :
    (GoCert.create_first_user ⟨"https://gc3.example", ""⟩ "admin" "Passw0rd"
        (fun _ => .response ⟨201, "created", some (.obj [("id", .int 0)])⟩)).2.1
      = .ok none ∧ (200 ≤ 201 ∧ 201 < 300) :=
  ⟨rfl, by omega⟩

/-- Claim C3, amended: on a 4xx/5xx response `create_first_user` returns
`None`; on a 2xx response with a JSON-object body it returns the id exactly
when the body carries a nonzero integer id, and `None` when the id field is
zero, missing, or null. -/
theorem C3_create_first_user_amended (c : GoCert) (u p : String)
    (env : HttpRequest → HttpOutcome) (r : Response)
    (h : env (c.create_first_user_request u p) = .response r) :
    ((400 ≤ r.status_code ∧ r.status_code < 600) →
        (c.create_first_user u p env).2.1 = .ok none) ∧
    ((200 ≤ r.status_code ∧ r.status_code < 300) →
      ∀ fields, r.body = some (.obj fields) →
        ((∀ n : Int, fields.lookup "id" = some (.int n) →
            (c.create_first_user u p env).2.1
              = .ok (if n = 0 then none else some n)) ∧
         (fields.lookup "id" = none →
            (c.create_first_user u p env).2.1 = .ok none) ∧
         (fields.lookup "id" = some .null →
            (c.create_first_user u p env).2.1 = .ok none))) := by
  constructor
  · intro hc
    have he : errorStatus r.status_code = true := (errorStatus_iff _).mpr hc
    simp [GoCert.create_first_user, h, he]
  · intro hc fields hb
    have he : errorStatus r.status_code = false :=
      (errorStatus_false_iff _).mpr (by omega)
    refine ⟨fun n hl => ?_, fun hl => ?_, fun hl => ?_⟩
    · by_cases hn : n = 0
      · simp [GoCert.create_first_user, h, he, hb, JsonVal.get, JsonVal.getD,
              hl, hn, JsonVal.truthy]
      · simp [GoCert.create_first_user, h, he, hb, JsonVal.get, JsonVal.getD,
              hl, hn, JsonVal.truthy, pyInt]
    · simp [GoCert.create_first_user, h, he, hb, JsonVal.get, JsonVal.getD,
            hl, JsonVal.truthy]
    · simp [GoCert.create_first_user, h, he, hb, JsonVal.get, JsonVal.getD,
            hl, JsonVal.truthy]

/-- Witness for the amended C3 theorem: a 200 response with body id 7 yields
the id 7. -/
theorem C3_create_first_user_amended_witness :
    (GoCert.create_first_user ⟨"https://gc3w.example", ""⟩ "admin" "Passw0rd1"
        (fun _ => .response ⟨200, "created", some (.obj [("id", .int 7)])⟩)).2.1
      = .ok (some 7) := by
  have h := ((C3_create_first_user_amended ⟨"https://gc3w.example", ""⟩
      "admin" "Passw0rd1"
      (fun _ => .response ⟨200, "created", some (.obj [("id", .int 7)])⟩)
      ⟨200, "created", some (.obj [("id", .int 7)])⟩
      rfl).2 (by decide) [("id", .int 7)] rfl).1 7 rfl
  simpa using h

/-! Helper lemmas for the table rows: a dict element builds its row without
raising, and the comprehension over a list of dict elements maps them in
order. -/

theorem rowOfElem_obj (fields : List (String × JsonVal)) :
    rowOfElem (.obj fields) = .ok (rowOfObj fields) := rfl

theorem buildRows_map_obj (fss : List (List (String × JsonVal))) :
    buildRows (fss.map JsonVal.obj) = .ok (fss.map rowOfObj) := by
  induction fss with
  | nil => rfl
  | cons fs rest ih =>
      simp only [List.map_cons, buildRows, rowOfElem_obj, ih]
      rfl

/-- Claim C4, counterexample: the claim says every returned record has an
integer id and string contents, but the source stores whatever `.get`
returned — for a table element without those keys the stored fields are
Python `None`, which is no integer. -/
theorem C4_counterexample :
    (GoCert.get_certificate_requests_table ⟨"https://gc4.example", ""⟩ "tok4"
        (fun _ => .response ⟨200, "table", some (.arr [.obj []])⟩)).2.1
      = .ok (some ⟨[⟨.null, .null, .null⟩]⟩) ∧
    (∀ n : Int, JsonVal.null ≠ JsonVal.int n) := by
  refine ⟨rfl, fun n hn => by cases hn⟩

/-- Claim C4, amended: on a 2xx response whose body is an array of JSON
objects, the returned collection has exactly one record per element, in
server order, each record holding the element id, csr and certificate values
(null standing for a missing key); whenever every element carries an integer
id, a string csr and a string certificate, every record does too. -/
theorem C4_table_rows_amended (c : GoCert) (token : String)
    (env : HttpRequest → HttpOutcome) (r : Response)
    (fss : List (List (String × JsonVal)))
    (h : env (c.certificate_requests_get_request token) = .response r)
    (h2 : 200 ≤ r.status_code ∧ r.status_code < 300)
    (hb : r.body = some (.arr (fss.map JsonVal.obj))) :
    (c.get_certificate_requests_table token env).2.1
      = .ok (some ⟨fss.map rowOfObj⟩) ∧
    (fss.map rowOfObj).length = fss.length ∧
    ((∀ fs ∈ fss,
        (∃ n : Int, fs.lookup "id" = some (.int n)) ∧
        (∃ s : String, fs.lookup "csr" = some (.str s)) ∧
        (∃ s : String, fs.lookup "certificate" = some (.str s))) →
      ∀ row ∈ fss.map rowOfObj,
        (∃ n : Int, row.id = .int n) ∧
        (∃ s : String, row.csr = .str s) ∧
        (∃ s : String, row.certificate = .str s)) := by
  have he : errorStatus r.status_code = false :=
    (errorStatus_false_iff _).mpr (by omega)
  refine ⟨?_, List.length_map _ _, ?_⟩
  · cases fss with
    | nil =>
        simp [GoCert.get_certificate_requests_table, h, he, hb, JsonVal.truthy]
    | cons fs rest =>
        have hbr : buildRows (JsonVal.obj fs :: List.map JsonVal.obj rest)
            = .ok (rowOfObj fs :: List.map rowOfObj rest) :=
          buildRows_map_obj (fs :: rest)
        simp [GoCert.get_certificate_requests_table, h, he, hb, JsonVal.truthy,
              hbr]
  · intro hwf row hrow
    simp only [List.mem_map] at hrow
    obtain ⟨fs, hfs, hr⟩ := hrow
    obtain ⟨⟨n, hn⟩, ⟨s1, hs1⟩, ⟨s2, hs2⟩⟩ := hwf fs hfs
    subst hr
    exact ⟨⟨n, by simp [rowOfObj, hn]⟩, ⟨s1, by simp [rowOfObj, hs1]⟩,
           ⟨s2, by simp [rowOfObj, hs2]⟩⟩

/-- Witness for the amended C4 theorem: one well-formed element yields the
one corresponding record. -/
theorem C4_table_rows_amended_witness :
    (GoCert.get_certificate_requests_table ⟨"https://gc4w.example", ""⟩ "tok4w"
        (fun _ => .response ⟨200, "table",
          some (.arr [.obj [("id", .int 3), ("csr", .str "data"),
                            ("certificate", .str "")]])⟩)).2.1
      = .ok (some ⟨[⟨.int 3, .str "data", .str ""⟩]⟩) := by
  have h := (C4_table_rows_amended ⟨"https://gc4w.example", ""⟩ "tok4w"
      (fun _ => .response ⟨200, "table",
          some (.arr [.obj [("id", .int 3), ("csr", .str "data"),
                            ("certificate", .str "")]])⟩)
      ⟨200, "table", some (.arr [.obj [("id", .int 3), ("csr", .str "data"),
                                       ("certificate", .str "")]])⟩
      [[("id", .int 3), ("csr", .str "data"), ("certificate", .str "")]]
      rfl (by decide) rfl).1
  exact h

/-- Claim C9: the configuration stored by `__init__` is never modified by any
operation — each method hands back the client it received — and every
request an operation constructs takes its URL from the configured base URL
and its verify argument from the configured CA path. -/
theorem C9_configuration_immutable (c : GoCert) (u p tok csr : String)
    (env : HttpRequest → HttpOutcome) :
    ((c.login u p env).1 = c ∧
     (c.token_is_valid tok env).1 = c ∧
     (c.is_api_available env).1 = c ∧
     (c.is_initialized env).1 = c ∧
     (c.create_first_user u p env).1 = c ∧
     (c.get_certificate_requests_table tok env).1 = c ∧
     (c.post_csr csr tok env).1 = c) ∧
    ((c.login_request u p).url = c.url ++ "/login" ∧
     (c.login_request u p).verify = verifyArg c.ca_path ∧
     (c.token_request tok).url = c.url ++ "/accounts" ∧
     (c.token_request tok).verify = verifyArg c.ca_path ∧
     c.status_request.url = c.url ++ "/status" ∧
     c.status_request.verify = verifyArg c.ca_path ∧
     (c.create_first_user_request u p).url
        = c.url ++ "/api/" ++ GoCert.API_VERSION ++ "/accounts" ∧
     (c.create_first_user_request u p).verify = verifyArg c.ca_path ∧
     (c.certificate_requests_get_request tok).url
        = c.url ++ "/api/" ++ GoCert.API_VERSION ++ "/certificate_requests" ∧
     (c.certificate_requests_get_request tok).verify = verifyArg c.ca_path ∧
     (c.post_csr_request csr tok).url
        = c.url ++ "/api/" ++ GoCert.API_VERSION ++ "/certificate_requests" ∧
     (c.post_csr_request csr tok).verify = verifyArg c.ca_path) :=
  ⟨⟨login_preserves_client c u p env,
    token_is_valid_preserves_client c tok env,
    is_api_available_preserves_client c env,
    is_initialized_preserves_client c env,
    create_first_user_preserves_client c u p env,
    table_preserves_client c tok env,
    post_csr_preserves_client c csr tok env⟩,
   ⟨rfl, rfl, rfl, rfl, rfl, rfl, rfl, rfl, rfl, rfl, rfl, rfl⟩⟩

end GoCertLib
